import Mathlib

/-!
Verification development for the go-lite-logger repository.

The embedding below translates the buffered-writer core (logWriter/writer.go,
logWriter/level.go, the Entry constructors, and the facade in logger/logger.go)
into executable Lean definitions.  Machine `[]byte` values are lists of `Nat`
byte values, the Go `int` cursor `position` is an unbounded `Int` (its values
stay far below 2^63 on every path considered), and Go runtime panics (slice
bounds out of range) are modelled by `Option`: `none` means the operation
panicked.  File-system behaviour that the worker merely observes (does the
destination file exist, does the underlying `os.File.Write` succeed) is an
explicit `Env` parameter, so each operation is a pure function of the worker
state and the environment in effect while it runs.  The worker's mutex
serialises `Write`, the timer flush and `CloseWorker` against each other, so a
run of the concurrent system is a sequence of these atomic operations; `runOps`
folds such a sequence.
-/

/-- Go error values; only their identity matters here. -/
abbrev GoError := String

/-- Byte values carried by the worker's `[]byte` buffer. -/
abbrev Byte := Nat

/-- The file-system facts an operation observes while it holds the lock:
whether `os.Stat` finds the destination (see `Worker.fileExists` in
writer.go), and whether `fileRoot.Write` succeeds or returns an error. -/
structure Env where
  fileExists : Bool
  writeErr : Option GoError
deriving Repr, DecidableEq

/-- The mutable worker state guarded by the lock in writer.go: the `buffer`
byte slice (created as `make([]byte, capacity)`) and the `position` cursor
(a Go `int`). -/
structure WorkerState where
  buffer : List Byte
  position : Int
deriving Repr, DecidableEq

/-- `const capacity = 32768` from writer.go. -/
def capacity : Nat := 32768

/-- A fresh worker as built by `NewWorker`: a zeroed buffer of length
`capacity` and `position = 0`. -/
def freshWorker : WorkerState := ⟨List.replicate capacity 0, 0⟩

/-- The result of one worker operation: the two Go return values `(n, err)`,
the successor state, the bytes the operation appended to the destination
file, and how many times it invoked the user error callback. -/
structure SaveOutcome where
  n : Nat
  err : Option GoError
  state : WorkerState
  written : List Byte
  callbacks : Nat
deriving Repr, DecidableEq

/-- Go's `copy(dst, src)`: overwrite the first `min |dst| |src|` entries of
`dst` with those of `src`, keeping `dst`'s length. -/
def goCopy (dst src : List Byte) : List Byte :=
  src.take dst.length ++ dst.drop src.length

/-- `Worker.save` from writer.go: a no-op returning `(0, nil)` when
`position == 0`; otherwise, when the destination exists, write
`buffer[0:position]` (resetting `position` on success, keeping it on a write
error, which is returned without invoking the callback); when the destination
is missing, invoke the callback and return `(0, nil)` without writing.  The
Go slice `buffer[0:position]` panics (`none`) when `position` is outside
`[0, len(buffer)]`. -/
def save (env : Env) (w : WorkerState) : Option SaveOutcome :=
  if w.position = 0 then
    some ⟨0, none, w, [], 0⟩
  else if env.fileExists then
    if 0 ≤ w.position ∧ w.position ≤ (w.buffer.length : Int) then
      match env.writeErr with
      | none =>
          some ⟨w.position.toNat, none, { w with position := 0 },
            w.buffer.take w.position.toNat, 0⟩
      | some e => some ⟨0, some e, w, [], 0⟩
    else none
  else
    some ⟨0, none, w, [], 1⟩

/-- The tail of `Worker.Write`: `copy(w.buffer[w.position:], data)` followed
by `w.position += length`.  The slice expression `buffer[position:]` panics
(`none`) when `position` is outside `[0, len(buffer)]`; `copy` silently
truncates `data` to the room left, while `position` advances by the full
`len(data)` regardless. -/
def copyToBuffer (w : WorkerState) (data : List Byte) : Option WorkerState :=
  if 0 ≤ w.position ∧ w.position ≤ (w.buffer.length : Int) then
    some ⟨w.buffer.take w.position.toNat ++
            goCopy (w.buffer.drop w.position.toNat) data,
          w.position + (data.length : Int)⟩
  else none

/-- `Worker.Write` from writer.go (the io.Writer implementation): when
`len(data) + position > capacity` it first calls `save`; a non-nil error from
`save` fires the callback and aborts the append; otherwise (including the
destination-missing case, where `save` returns a nil error without resetting
`position`) the data is copied at `position` and the cursor advances. -/
def Worker.Write (env : Env) (w : WorkerState) (data : List Byte) :
    Option SaveOutcome :=
  if (data.length : Int) + w.position > (capacity : Int) then
    (save env w).bind fun o =>
      match o.err with
      | some e => some ⟨o.n, some e, o.state, o.written, o.callbacks + 1⟩
      | none => (copyToBuffer o.state data).map fun w' =>
          ⟨o.n, none, w', o.written, o.callbacks⟩
  else
    (copyToBuffer w data).map fun w' => ⟨0, none, w', [], 0⟩

/-- One iteration of the ticker branch of `Worker.doTimerJob`: call `save`
and invoke the callback when it returned a non-nil error. -/
def timerFlush (env : Env) (w : WorkerState) : Option SaveOutcome :=
  (save env w).map fun o =>
    match o.err with
    | some _ => { o with callbacks := o.callbacks + 1 }
    | none => o

/-- What `Worker.CloseWorker` produces: the final state, the bytes the whole
shutdown appended to the file, and the total number of callback
invocations.  (`CloseWorker` itself returns nothing in Go; the `save` errors
it receives are discarded.) -/
structure CloseOutcome where
  state : WorkerState
  written : List Byte
  callbacks : Nat
deriving Repr, DecidableEq

/-- The drain loop of `Worker.CloseWorker`: each entry still sitting in the
channel is rendered by `writeToBuffer` through its log handle, which hands
the rendered bytes to `Worker.Write` (whose return values the log package
discards).  The loop is modelled over the list of rendered byte strings. -/
def drainLoop (env : Env) (w : WorkerState) (queued : List (List Byte)) :
    Option CloseOutcome :=
  match queued with
  | [] => some ⟨w, [], 0⟩
  | r :: rest =>
    (Worker.Write env w r).bind fun o =>
      (drainLoop env o.state rest).map fun c =>
        ⟨c.state, o.written ++ c.written, o.callbacks + c.callbacks⟩

/-- `Worker.CloseWorker` from writer.go: after closing the stop channels it
calls `save`, drains the snapshot of queued entries through `writeToBuffer`,
and calls `save` again.  Both `save` return values are discarded. -/
def CloseWorker (env : Env) (w : WorkerState) (queued : List (List Byte)) :
    Option CloseOutcome :=
  (save env w).bind fun o1 =>
    (drainLoop env o1.state queued).bind fun c =>
      (save env c.state).map fun o2 =>
        ⟨o2.state, o1.written ++ c.written ++ o2.written,
         o1.callbacks + c.callbacks + o2.callbacks⟩

/-- One serialised operation on the worker, together with the environment in
effect while it holds the lock. -/
inductive Op where
  | write (env : Env) (data : List Byte)
  | timer (env : Env)
  | close (env : Env) (queued : List (List Byte))
deriving Repr

/-- Apply one operation to the worker state (`none` = the operation
panicked). -/
def stepOp (w : WorkerState) : Op → Option WorkerState
  | .write env data => (Worker.Write env w data).map SaveOutcome.state
  | .timer env => (timerFlush env w).map SaveOutcome.state
  | .close env queued => (CloseWorker env w queued).map CloseOutcome.state

/-- Run a sequence of serialised operations from a state; `none` as soon as
one of them panics. -/
def runOps (w : WorkerState) : List Op → Option WorkerState
  | [] => some w
  | op :: rest => (stepOp w op).bind fun w' => runOps w' rest

/-- An environment in which the destination file exists and writes succeed. -/
def goodEnv : Env := ⟨true, none⟩

/-- An environment in which the destination file has been deleted. -/
def missingEnv : Env := ⟨false, none⟩

theorem goCopy_length (dst src : List Byte) :
    (goCopy dst src).length = dst.length := by
  simp only [goCopy, List.length_append, List.length_take, List.length_drop]
  omega

theorem goCopy_take {dst src : List Byte} (h : src.length ≤ dst.length) :
    (goCopy dst src).take src.length = src := by
  simp only [goCopy]
  rw [List.take_append_of_le_length (by simpa using h), List.take_take,
    min_eq_left h, List.take_of_length_le (by simp)]

theorem freshWorker_buffer_length : freshWorker.buffer.length = capacity := by
  simp [freshWorker]

/-- Well-formedness of a worker state: the buffer keeps the length it was
allocated with, and the cursor lies inside it. -/
def WorkerWF (w : WorkerState) : Prop :=
  w.buffer.length = capacity ∧ 0 ≤ w.position ∧ w.position ≤ (capacity : Int)

theorem workerWF_freshWorker : WorkerWF freshWorker := by
  refine ⟨freshWorker_buffer_length, ?_, ?_⟩ <;> simp [freshWorker]

theorem take_append_goCopy (buf r : List Byte) (p : Nat)
    (hr : p + r.length ≤ buf.length) :
    (buf.take p ++ goCopy (buf.drop p) r).take (p + r.length) =
      buf.take p ++ r := by
  have hp : p ≤ buf.length := le_trans (Nat.le_add_right _ _) hr
  have hlen : (buf.take p).length = p := by
    rw [List.length_take, min_eq_left hp]
  rw [List.take_append_eq_append_take, hlen,
    List.take_of_length_le (by omega), Nat.add_sub_cancel_left,
    goCopy_take (by simp; omega)]


/-- `save` with an empty valid range is the documented no-op. -/
theorem save_posZero {env : Env} {w : WorkerState} (h : w.position = 0) :
    save env w = some ⟨0, none, w, [], 0⟩ := by
  rw [save, if_pos h]

/-- `save` with a missing destination: callback once, nil error, untouched
state, nothing written. -/
theorem save_missing {env : Env} {w : WorkerState}
    (hf : env.fileExists = false) (hp : w.position ≠ 0) :
    save env w = some ⟨0, none, w, [], 1⟩ := by
  simp [save, hf, hp]

/-- `save` whose underlying file write errors: the error is returned, the
cursor and buffer are untouched, and `save` itself fires no callback. -/
theorem save_writeErr {env : Env} {w : WorkerState} {e : GoError}
    (hf : env.fileExists = true) (hw : env.writeErr = some e)
    (hp : w.position ≠ 0) (h0 : 0 ≤ w.position)
    (h1 : w.position ≤ (w.buffer.length : Int)) :
    save env w = some ⟨0, some e, w, [], 0⟩ := by
  simp [save, hf, hw, hp, h0, h1]

/-- `save` whose write succeeds: `buffer[0:position]` goes to the file and
the cursor resets. -/
theorem save_writeOk {env : Env} {w : WorkerState}
    (hf : env.fileExists = true) (hw : env.writeErr = none)
    (h0 : 0 ≤ w.position) (h1 : w.position ≤ (w.buffer.length : Int)) :
    save env w = some ⟨w.position.toNat, none, { w with position := 0 },
      w.buffer.take w.position.toNat, 0⟩ := by
  rcases w with ⟨buf, pos⟩
  by_cases hp : pos = 0
  · subst hp
    simp [save]
  · simp only at h0 h1
    simp [save, hf, hw, hp, h0, h1]

/-- The in-bounds behaviour of the copy step of `Write`. -/
theorem copyToBuffer_eq {w : WorkerState} (data : List Byte)
    (h0 : 0 ≤ w.position) (h1 : w.position ≤ (w.buffer.length : Int)) :
    copyToBuffer w data =
      some ⟨w.buffer.take w.position.toNat ++
              goCopy (w.buffer.drop w.position.toNat) data,
            w.position + (data.length : Int)⟩ := by
  rw [copyToBuffer, if_pos ⟨h0, h1⟩]

/-- `Write` when the data fits: no flush, the bytes are copied at the cursor
and the cursor advances. -/
theorem write_noOverflow {env : Env} {w : WorkerState} {d : List Byte}
    (hov : ¬((d.length : Int) + w.position > (capacity : Int)))
    (h0 : 0 ≤ w.position) (h1 : w.position ≤ (w.buffer.length : Int)) :
    Worker.Write env w d =
      some ⟨0, none,
        ⟨w.buffer.take w.position.toNat ++
           goCopy (w.buffer.drop w.position.toNat) d,
         w.position + (d.length : Int)⟩, [], 0⟩ := by
  rw [Worker.Write, if_neg hov, copyToBuffer_eq d h0 h1, Option.map_some']

/-- `Write` whose make-room flush returns a write error: callback fired,
error propagated, nothing copied, state untouched. -/
theorem write_overflow_err {env : Env} {w : WorkerState} {d : List Byte}
    {e : GoError}
    (hov : (d.length : Int) + w.position > (capacity : Int))
    (hf : env.fileExists = true) (hw : env.writeErr = some e)
    (hp : w.position ≠ 0) (h0 : 0 ≤ w.position)
    (h1 : w.position ≤ (w.buffer.length : Int)) :
    Worker.Write env w d = some ⟨0, some e, w, [], 1⟩ := by
  rw [Worker.Write, if_pos hov, save_writeErr hf hw hp h0 h1,
    Option.some_bind]

/-- `Write` whose make-room flush succeeds: the old valid range goes to the
file, then the data is copied at offset 0. -/
theorem write_overflow_ok {env : Env} {w : WorkerState} {d : List Byte}
    (hov : (d.length : Int) + w.position > (capacity : Int))
    (hf : env.fileExists = true) (hw : env.writeErr = none)
    (h0 : 0 ≤ w.position) (h1 : w.position ≤ (w.buffer.length : Int)) :
    Worker.Write env w d =
      some ⟨w.position.toNat, none, ⟨goCopy w.buffer d, (d.length : Int)⟩,
        w.buffer.take w.position.toNat, 0⟩ := by
  rw [Worker.Write, if_pos hov, save_writeOk hf hw h0 h1, Option.some_bind]
  dsimp only
  rw [copyToBuffer_eq d (by exact le_refl 0) (by exact Int.ofNat_nonneg _),
    Option.map_some']
  simp

/-- `Write` whose make-room flush found the destination missing: the flush
fires the callback but reports a nil error, so the append still proceeds at
the old cursor (this is the latent cursor-overrun path). -/
theorem write_overflow_missing {env : Env} {w : WorkerState} {d : List Byte}
    (hov : (d.length : Int) + w.position > (capacity : Int))
    (hf : env.fileExists = false) (hp : w.position ≠ 0)
    (h0 : 0 ≤ w.position) (h1 : w.position ≤ (w.buffer.length : Int)) :
    Worker.Write env w d =
      some ⟨0, none,
        ⟨w.buffer.take w.position.toNat ++
           goCopy (w.buffer.drop w.position.toNat) d,
         w.position + (d.length : Int)⟩, [], 1⟩ := by
  rw [Worker.Write, if_pos hov, save_missing hf hp, Option.some_bind]
  dsimp only
  rw [copyToBuffer_eq d h0 h1, Option.map_some']

/-- In a good environment, a `Write` of at most `capacity` bytes on a
well-formed state succeeds with no callback, preserves well-formedness, and
satisfies the accounting identity: bytes sent to the file plus the
still-buffered valid range equal the old valid range plus the new data. -/
theorem write_good {w : WorkerState} {r : List Byte} (hWF : WorkerWF w)
    (hr : r.length ≤ capacity) :
    ∃ o, Worker.Write goodEnv w r = some o ∧ o.err = none ∧ o.callbacks = 0 ∧
      WorkerWF o.state ∧
      o.written ++ o.state.buffer.take o.state.position.toNat =
        w.buffer.take w.position.toNat ++ r := by
  obtain ⟨hlen, h0, hc⟩ := hWF
  have h1 : w.position ≤ (w.buffer.length : Int) := by rw [hlen]; exact hc
  by_cases hov : (r.length : Int) + w.position > (capacity : Int)
  · refine ⟨_, write_overflow_ok hov rfl rfl h0 h1, rfl, rfl,
      ⟨?_, ?_, ?_⟩, ?_⟩
    · show (goCopy w.buffer r).length = capacity
      rw [goCopy_length, hlen]
    · show (0 : Int) ≤ (r.length : Int)
      exact Int.ofNat_nonneg _
    · show ((r.length : Int)) ≤ (capacity : Int)
      exact_mod_cast hr
    · show w.buffer.take w.position.toNat ++
          (goCopy w.buffer r).take ((r.length : Int)).toNat =
        w.buffer.take w.position.toNat ++ r
      have ht : ((r.length : Int)).toNat = r.length := by omega
      rw [ht, goCopy_take (by rw [hlen]; exact hr)]
  · refine ⟨_, write_noOverflow hov h0 h1, rfl, rfl, ⟨?_, ?_, ?_⟩, ?_⟩
    · show (w.buffer.take w.position.toNat ++
        goCopy (w.buffer.drop w.position.toNat) r).length = capacity
      simp only [List.length_append, List.length_take, goCopy_length,
        List.length_drop]
      omega
    · show (0 : Int) ≤ w.position + (r.length : Int)
      omega
    · show w.position + (r.length : Int) ≤ (capacity : Int)
      omega
    · show [] ++ (w.buffer.take w.position.toNat ++
          goCopy (w.buffer.drop w.position.toNat) r).take
            ((w.position + (r.length : Int)).toNat) =
        w.buffer.take w.position.toNat ++ r
      have ht : (w.position + (r.length : Int)).toNat =
          w.position.toNat + r.length := by omega
      rw [List.nil_append, ht,
        take_append_goCopy _ _ _ (by rw [hlen]; omega)]

/-- In a good environment the drain loop of `CloseWorker` consumes the
queued (rendered) entries in order, fires no callback, keeps the state
well-formed, and accounts for every byte: what it wrote plus what is still
buffered equals what was buffered before plus all queued bytes. -/
theorem drainLoop_good (queued : List (List Byte)) :
    ∀ w : WorkerState, WorkerWF w → (∀ r ∈ queued, r.length ≤ capacity) →
      ∃ c, drainLoop goodEnv w queued = some c ∧ c.callbacks = 0 ∧
        WorkerWF c.state ∧
        c.written ++ c.state.buffer.take c.state.position.toNat =
          w.buffer.take w.position.toNat ++ queued.flatten := by
  induction queued with
  | nil =>
    intro w hWF _
    exact ⟨⟨w, [], 0⟩, rfl, rfl, hWF, by simp⟩
  | cons r rest ih =>
    intro w hWF hq
    obtain ⟨o, ho, -, hcb, hWF', hacc⟩ :=
      write_good hWF (hq r (List.mem_cons_self r rest))
    obtain ⟨c, hc, hccb, hWFc, haccc⟩ :=
      ih o.state hWF' (fun x hx => hq x (List.mem_cons_of_mem r hx))
    refine ⟨⟨c.state, o.written ++ c.written, o.callbacks + c.callbacks⟩,
      ?_, ?_, hWFc, ?_⟩
    · rw [drainLoop, ho, Option.some_bind]
      rw [hc, Option.map_some']
    · simp [hcb, hccb]
    · show (o.written ++ c.written) ++
          c.state.buffer.take c.state.position.toNat =
        w.buffer.take w.position.toNat ++ (r :: rest).flatten
      rw [List.append_assoc, haccc, ← List.append_assoc, hacc,
        List.flatten_cons, List.append_assoc]

/-- In a good environment `CloseWorker` on a well-formed state terminates
with an empty buffer, fires no callback, and appends to the file exactly the
previously buffered valid range followed by the queued entries' bytes in
queue order. -/
theorem closeWorker_good {w : WorkerState} {queued : List (List Byte)}
    (hWF : WorkerWF w) (hq : ∀ r ∈ queued, r.length ≤ capacity) :
    ∃ c, CloseWorker goodEnv w queued = some c ∧ c.state.position = 0 ∧
      c.callbacks = 0 ∧
      c.written = w.buffer.take w.position.toNat ++ queued.flatten := by
  obtain ⟨hlen, h0, hc⟩ := hWF
  have h1 : w.position ≤ (w.buffer.length : Int) := by rw [hlen]; exact hc
  have hs1 := @save_writeOk goodEnv _ rfl rfl h0 h1
  have hWF1 : WorkerWF { w with position := 0 } :=
    ⟨hlen, le_refl 0, by show (0 : Int) ≤ (capacity : Int); exact_mod_cast Nat.zero_le capacity⟩
  obtain ⟨c, hcdrain, hccb, hWFc, hacc⟩ :=
    drainLoop_good queued { w with position := 0 } hWF1 hq
  obtain ⟨hlenc, h0c, hcc⟩ := hWFc
  have h1c : c.state.position ≤ (c.state.buffer.length : Int) := by
    rw [hlenc]; exact hcc
  have hs2 := @save_writeOk goodEnv _ rfl rfl h0c h1c
  refine ⟨⟨{ c.state with position := 0 },
    w.buffer.take w.position.toNat ++ c.written ++
      c.state.buffer.take c.state.position.toNat,
    0 + c.callbacks + 0⟩, ?_, rfl, ?_, ?_⟩
  · rw [CloseWorker, hs1, Option.some_bind]
    rw [hcdrain, Option.some_bind]
    dsimp only
    rw [hs2, Option.map_some']
  · simp [hccb]
  · show w.buffer.take w.position.toNat ++ c.written ++
        c.state.buffer.take c.state.position.toNat =
      w.buffer.take w.position.toNat ++ queued.flatten
    rw [List.append_assoc, hacc]
    simp

/-- `save` panics (slice bounds out of range on `buffer[0:position]`) when
the cursor has escaped the buffer. -/
theorem save_oob {env : Env} {w : WorkerState}
    (hf : env.fileExists = true) (hp : w.position ≠ 0)
    (hb : ¬(0 ≤ w.position ∧ w.position ≤ (w.buffer.length : Int))) :
    save env w = none := by
  simp [save, hf, hp, hb]

/-- The buffer contents after filling a fresh worker with 32760 bytes. -/
def bufAfterFill : List Byte :=
  goCopy (List.replicate capacity 0) (List.replicate 32760 1)

/-- The worker state reached from `freshWorker` by one in-capacity `Write`
of 32760 bytes in a good environment. -/
def filledWorker : WorkerState := ⟨bufAfterFill, 32760⟩

theorem bufAfterFill_length : bufAfterFill.length = capacity := by
  rw [bufAfterFill, goCopy_length, List.length_replicate]

theorem write_fill :
    Worker.Write goodEnv freshWorker (List.replicate 32760 1) =
      some ⟨0, none, filledWorker, [], 0⟩ := by
  rw [write_noOverflow (by norm_num [freshWorker, capacity])
    (by norm_num [freshWorker]) (by norm_num [freshWorker, capacity])]
  rw [show freshWorker.position = 0 from rfl,
    show freshWorker.buffer = List.replicate capacity 0 from rfl,
    List.length_replicate, Int.toNat_zero, List.take_zero, List.drop_zero,
    List.nil_append, zero_add, filledWorker, bufAfterFill,
    show ((32760 : Nat) : Int) = (32760 : Int) from rfl]

theorem runOps_cons_some {w w' : WorkerState} {op : Op}
    (h : stepOp w op = some w') (rest : List Op) :
    runOps w (op :: rest) = runOps w' rest := by
  simp only [runOps, h, Option.some_bind]

theorem runOps_cons_none {w : WorkerState} {op : Op}
    (h : stepOp w op = none) (rest : List Op) :
    runOps w (op :: rest) = none := by
  simp only [runOps, h, Option.none_bind]

/-- The state after `Write`-ing 16 more bytes into `filledWorker` while the
destination file is missing: the make-room flush reports a nil error without
resetting the cursor, so the cursor lands on 32776 > capacity. -/
def spilledWorker : WorkerState :=
  ⟨filledWorker.buffer.take 32760 ++
     goCopy (filledWorker.buffer.drop 32760) (List.replicate 16 2), 32776⟩

theorem write_spill :
    Worker.Write missingEnv filledWorker (List.replicate 16 2) =
      some ⟨0, none, spilledWorker, [], 1⟩ := by
  rw [write_overflow_missing
    (by norm_num [filledWorker, capacity])
    rfl
    (by norm_num [filledWorker])
    (by norm_num [filledWorker])
    (by norm_num [filledWorker, bufAfterFill_length, capacity])]
  rw [show filledWorker.position = (32760 : Int) from rfl,
    show ((32760 : Int)).toNat = 32760 from rfl, List.length_replicate,
    spilledWorker, show ((16 : Nat) : Int) = (16 : Int) from rfl,
    show (32760 : Int) + 16 = 32776 from rfl]

theorem step_fill :
    stepOp freshWorker (Op.write goodEnv (List.replicate 32760 1)) =
      some filledWorker := by
  show (Worker.Write goodEnv freshWorker (List.replicate 32760 1)).map
      SaveOutcome.state = some filledWorker
  rw [write_fill]
  rfl

theorem step_spill :
    stepOp filledWorker (Op.write missingEnv (List.replicate 16 2)) =
      some spilledWorker := by
  show (Worker.Write missingEnv filledWorker (List.replicate 16 2)).map
      SaveOutcome.state = some spilledWorker
  rw [write_spill]
  rfl

/-- C1: REFUTED AS STATED (code bug).  The spec's cursor invariant
`0 ≤ position ≤ capacity` is claimed to hold across every operation,
including the missing-destination error path.  Running the code from a
fresh worker — one in-capacity append of 32760 bytes, then an append of 16
bytes while the destination file is missing — leaves `position = 32776`,
which exceeds `capacity = 32768`: the make-room `save` returns a nil error
without resetting `position`, and `Write` then advances the cursor past the
end of the buffer. -/
theorem position_overruns_capacity_on_missing_file_flush :
    (runOps freshWorker [Op.write goodEnv (List.replicate 32760 1),
        Op.write missingEnv (List.replicate 16 2)]).map WorkerState.position =
      some 32776 ∧ ¬((32776 : Int) ≤ (capacity : Int)) := by
  constructor
  · rw [runOps_cons_some step_fill, runOps_cons_some step_spill]
    rfl
  · rw [capacity]
    decide

/-- The state reached from `freshWorker` by a single oversized `Write` of
32769 bytes in a good environment: the copy truncates the data to 32768
bytes but the cursor still advances to 32769. -/
def overWorker : WorkerState :=
  ⟨goCopy (List.replicate capacity 0) (List.replicate 32769 1), 32769⟩

theorem write_oversized :
    Worker.Write goodEnv freshWorker (List.replicate 32769 1) =
      some ⟨0, none, overWorker, [], 0⟩ := by
  rw [write_overflow_ok
    (by norm_num [freshWorker, capacity])
    rfl rfl
    (by norm_num [freshWorker])
    (by norm_num [freshWorker, capacity])]
  rw [show freshWorker.position = 0 from rfl,
    show freshWorker.buffer = List.replicate capacity 0 from rfl,
    List.length_replicate, Int.toNat_zero, List.take_zero, overWorker,
    show ((32769 : Nat) : Int) = (32769 : Int) from rfl]

theorem step_oversized :
    stepOp freshWorker (Op.write goodEnv (List.replicate 32769 1)) =
      some overWorker := by
  show (Worker.Write goodEnv freshWorker (List.replicate 32769 1)).map
      SaveOutcome.state = some overWorker
  rw [write_oversized]
  rfl

theorem step_timer_over : stepOp overWorker (Op.timer goodEnv) = none := by
  show (timerFlush goodEnv overWorker).map SaveOutcome.state = none
  have ht : timerFlush goodEnv overWorker = none := by
    rw [timerFlush, save_oob rfl (by norm_num [overWorker])
      (by norm_num [overWorker, goCopy_length, capacity]), Option.map_none']
  rw [ht]
  rfl

/-- C2: REFUTED AS STATED (code bug).  The spec claims no worker operation
panics and that the slice taken by flush is always within bounds.  From a
fresh worker, a single `Write` of 32769 bytes (one byte more than the
buffer) leaves `position = 32769` although only 32768 bytes fit, and the
next timer flush evaluates `buffer[0:32769]` on a 32768-byte buffer — a Go
slice-bounds panic, modelled as `none`. -/
theorem flush_out_of_bounds_after_oversized_write :
    runOps freshWorker [Op.write goodEnv (List.replicate 32769 1),
      Op.timer goodEnv] = none := by
  rw [runOps_cons_some step_oversized, runOps_cons_none step_timer_over]

/-- C3: COUNTEREXAMPLE.  Appending 16 bytes to a worker holding 32760
buffered bytes while the destination file is missing: the boundary is
crossed (fourth conjunct), the make-room flush fails — it flushes nothing
and fires the error callback (`written = []`, `callbacks = 1`) — yet the
append does not fail (`err = none`) and it mutates the state: the cursor
moves from 32760 to 32776 and the incoming bytes are partially copied,
contradicting «if that flush fails, the append fails without mutating
buffer or position». -/
theorem write_mutates_after_failed_makeroom_flush :
    Worker.Write goodEnv freshWorker (List.replicate 32760 1) =
      some ⟨0, none, filledWorker, [], 0⟩ ∧
    Worker.Write missingEnv filledWorker (List.replicate 16 2) =
      some ⟨0, none, spilledWorker, [], 1⟩ ∧
    spilledWorker.position ≠ filledWorker.position ∧
    ((List.replicate 16 (2 : Byte)).length : Int) + filledWorker.position >
      (capacity : Int) :=
  ⟨write_fill, write_spill, by norm_num [spilledWorker, filledWorker],
    by norm_num [filledWorker, capacity]⟩

/-- C3 (amended): on a boundary-crossing append the make-room flush runs
first.  (1) If the flush returns a write error, the callback fires and the
append fails without mutating buffer or cursor — the incoming bytes are
dropped.  (2) If the flush succeeds with the file present, the previously
buffered bytes all go to the file, the cursor resets, and the new data is
copied from offset 0 (in full whenever it fits the buffer).  (3) But if the
destination file is missing, the flush fires the callback while reporting a
nil error, so the append still proceeds at the old cursor: the new bytes
are truncated to the space left while the cursor advances by the full
length. -/
theorem write_overflow_behavior :
    (∀ (env : Env) (w : WorkerState) (d : List Byte) (e : GoError),
      env.fileExists = true → env.writeErr = some e →
      (d.length : Int) + w.position > (capacity : Int) →
      w.position ≠ 0 → 0 ≤ w.position → w.position ≤ (w.buffer.length : Int) →
      Worker.Write env w d = some ⟨0, some e, w, [], 1⟩) ∧
    (∀ (env : Env) (w : WorkerState) (d : List Byte),
      env.fileExists = true → env.writeErr = none →
      (d.length : Int) + w.position > (capacity : Int) →
      0 ≤ w.position → w.position ≤ (w.buffer.length : Int) →
      Worker.Write env w d = some ⟨w.position.toNat, none,
          ⟨goCopy w.buffer d, (d.length : Int)⟩,
          w.buffer.take w.position.toNat, 0⟩ ∧
        (d.length ≤ w.buffer.length → (goCopy w.buffer d).take d.length = d)) ∧
    (∀ (env : Env) (w : WorkerState) (d : List Byte),
      env.fileExists = false →
      (d.length : Int) + w.position > (capacity : Int) →
      w.position ≠ 0 → 0 ≤ w.position → w.position ≤ (w.buffer.length : Int) →
      Worker.Write env w d = some ⟨0, none,
        ⟨w.buffer.take w.position.toNat ++
           goCopy (w.buffer.drop w.position.toNat) d,
         w.position + (d.length : Int)⟩, [], 1⟩) :=
  ⟨fun _ _ _ _ hf hw hov hp h0 h1 => write_overflow_err hov hf hw hp h0 h1,
   fun _ _ _ hf hw hov h0 h1 =>
     ⟨write_overflow_ok hov hf hw h0 h1, fun hd => goCopy_take hd⟩,
   fun _ _ _ hf hov hp h0 h1 => write_overflow_missing hov hf hp h0 h1⟩

/-- Witness for C3 (amended), first conjunct at a concrete input: a
boundary-crossing append whose make-room flush errors leaves the worker
untouched, drops the data and fires the callback once. -/
theorem write_overflow_behavior_witness :
    Worker.Write ⟨true, some "disk full"⟩ ⟨[7, 7, 7], 2⟩
      (List.replicate 32767 9) =
      some ⟨0, some "disk full", ⟨[7, 7, 7], 2⟩, [], 1⟩ :=
  write_overflow_behavior.1 ⟨true, some "disk full"⟩ ⟨[7, 7, 7], 2⟩
    (List.replicate 32767 9) "disk full" rfl rfl
    (by norm_num [capacity]) (by norm_num) (by norm_num) (by norm_num)

/-- C4: COUNTEREXAMPLE.  Closing a fresh worker whose queue snapshot holds
one entry whose rendered form is 32769 bytes — one byte more than the
buffer — while the file exists and all writes succeed (so no I/O operation
fails): the drain overruns the cursor and the final flush panics on
`buffer[0:32769]`, so `close` never returns with the entry in the file,
contradicting «after close() returns position == 0 and the file contains
every entry». -/
theorem close_drops_oversized_entry :
    CloseWorker goodEnv freshWorker [List.replicate 32769 1] = none := by
  have hdrain : drainLoop goodEnv freshWorker [List.replicate 32769 1] =
      some ⟨overWorker, [], 0⟩ := by
    rw [drainLoop, write_oversized, Option.some_bind]
    dsimp only
    rw [show drainLoop goodEnv overWorker [] = some ⟨overWorker, [], 0⟩
      from rfl, Option.map_some']
    rfl
  have hsave2 : save goodEnv overWorker = none :=
    save_oob rfl (by norm_num [overWorker])
      (by norm_num [overWorker, goCopy_length, capacity])
  rw [CloseWorker, save_posZero rfl, Option.some_bind]
  dsimp only
  rw [hdrain, Option.some_bind]
  dsimp only
  rw [hsave2, Option.map_none']

/-- C4 (amended): for every well-formed worker state and every queue
snapshot whose rendered entries each fit the 32768-byte buffer, `close` in
an environment where the file exists and writes succeed returns with
`position = 0`, no callback fired, and the file extended by exactly the
previously buffered bytes followed by every queued entry's bytes in queue
(FIFO) order. -/
theorem close_flushes_buffer_and_queue {w : WorkerState}
    {queued : List (List Byte)} (hWF : WorkerWF w)
    (hq : ∀ r ∈ queued, r.length ≤ capacity) :
    ∃ c, CloseWorker goodEnv w queued = some c ∧ c.state.position = 0 ∧
      c.callbacks = 0 ∧
      c.written = w.buffer.take w.position.toNat ++ queued.flatten :=
  closeWorker_good hWF hq

/-- Witness for C4 (amended) at a concrete input: closing a fresh worker
with two small queued entries writes exactly their bytes in order. -/
theorem close_flushes_buffer_and_queue_witness :
    ∃ c, CloseWorker goodEnv freshWorker [[1, 2, 3], [4, 5]] = some c ∧
      c.state.position = 0 ∧ c.callbacks = 0 ∧
      c.written = freshWorker.buffer.take freshWorker.position.toNat ++
        [[1, 2, 3], [4, 5]].flatten :=
  close_flushes_buffer_and_queue workerWF_freshWorker (by decide)

/-- The worker state reached from `freshWorker` by one `Write` of the three
bytes `[5, 6, 7]` in a good environment. -/
def worker3 : WorkerState := ⟨goCopy (List.replicate capacity 0) [5, 6, 7], 3⟩

theorem write_three :
    Worker.Write goodEnv freshWorker [5, 6, 7] =
      some ⟨0, none, worker3, [], 0⟩ := by
  rw [write_noOverflow (by norm_num [freshWorker, capacity])
    (by norm_num [freshWorker]) (by norm_num [freshWorker, capacity])]
  rw [show freshWorker.position = 0 from rfl,
    show freshWorker.buffer = List.replicate capacity 0 from rfl,
    Int.toNat_zero, List.take_zero, List.drop_zero, List.nil_append, worker3,
    show (0 : Int) + (([5, 6, 7] : List Byte).length : Int) = 3 from rfl]

/-- C5: COUNTEREXAMPLE.  `worker3` is reachable (first conjunct) and holds
3 buffered bytes.  Closing it while the underlying write errors
("disk full"): both `save` calls inside `CloseWorker` return the error, but
`CloseWorker` discards it — the callback fires zero times — contradicting
«for every flush (from any trigger: capacity, timer, or close) on which the
underlying write call errors, the error callback is invoked».  (The bytes
are indeed retained: the final state is `worker3` unchanged.) -/
theorem close_discards_write_error_without_callback :
    Worker.Write goodEnv freshWorker [5, 6, 7] =
      some ⟨0, none, worker3, [], 0⟩ ∧
    CloseWorker ⟨true, some "disk full"⟩ worker3 [] =
      some ⟨worker3, [], 0⟩ ∧
    worker3.position ≠ 0 := by
  have hs : save ⟨true, some "disk full"⟩ worker3 =
      some ⟨0, some "disk full", worker3, [], 0⟩ :=
    save_writeErr rfl rfl (by norm_num [worker3]) (by norm_num [worker3])
      (by norm_num [worker3, goCopy_length, capacity])
  refine ⟨write_three, ?_, by norm_num [worker3]⟩
  rw [CloseWorker, hs, Option.some_bind]
  dsimp only
  rw [show drainLoop ⟨true, some "disk full"⟩ worker3 [] =
    some ⟨worker3, [], 0⟩ from rfl, Option.some_bind]
  dsimp only
  rw [hs, Option.map_some']
  rfl

/-- C5 (amended): when the underlying write call errors, (1) `save` returns
the error with the cursor not reset, the buffer untouched and nothing
written — the callback being its caller's duty — and a timer-triggered
flush then fires the callback exactly once; (2) a capacity-triggered flush
inside `Write` fires the callback and fails the append with that error; but
(3) a close-triggered flush discards the error entirely: `CloseWorker`
fires no callback and surfaces nothing, merely leaving the bytes buffered. -/
theorem flush_write_error_behavior :
    (∀ (env : Env) (w : WorkerState) (e : GoError),
      env.fileExists = true → env.writeErr = some e → w.position ≠ 0 →
      0 ≤ w.position → w.position ≤ (w.buffer.length : Int) →
      save env w = some ⟨0, some e, w, [], 0⟩ ∧
      timerFlush env w = some ⟨0, some e, w, [], 1⟩) ∧
    (∀ (env : Env) (w : WorkerState) (d : List Byte) (e : GoError),
      env.fileExists = true → env.writeErr = some e →
      (d.length : Int) + w.position > (capacity : Int) → w.position ≠ 0 →
      0 ≤ w.position → w.position ≤ (w.buffer.length : Int) →
      Worker.Write env w d = some ⟨0, some e, w, [], 1⟩) ∧
    (∀ (env : Env) (w : WorkerState) (e : GoError),
      env.fileExists = true → env.writeErr = some e → w.position ≠ 0 →
      0 ≤ w.position → w.position ≤ (w.buffer.length : Int) →
      CloseWorker env w [] = some ⟨w, [], 0⟩) := by
  refine ⟨fun env w e hf hw hp h0 h1 => ⟨save_writeErr hf hw hp h0 h1, ?_⟩,
    fun env w d e hf hw hov hp h0 h1 =>
      write_overflow_err hov hf hw hp h0 h1,
    fun env w e hf hw hp h0 h1 => ?_⟩
  · rw [timerFlush, save_writeErr hf hw hp h0 h1, Option.map_some']
  · rw [CloseWorker, save_writeErr hf hw hp h0 h1, Option.some_bind]
    dsimp only
    rw [show drainLoop env w [] = some ⟨w, [], 0⟩ from rfl,
      Option.some_bind]
    dsimp only
    rw [save_writeErr hf hw hp h0 h1, Option.map_some']
    rfl

/-- Witness for C5 (amended), first conjunct at a concrete input. -/
theorem flush_write_error_behavior_witness :
    save ⟨true, some "boom"⟩ ⟨[9, 9, 9, 9], 2⟩ =
      some ⟨0, some "boom", ⟨[9, 9, 9, 9], 2⟩, [], 0⟩ ∧
    timerFlush ⟨true, some "boom"⟩ ⟨[9, 9, 9, 9], 2⟩ =
      some ⟨0, some "boom", ⟨[9, 9, 9, 9], 2⟩, [], 1⟩ :=
  flush_write_error_behavior.1 ⟨true, some "boom"⟩ ⟨[9, 9, 9, 9], 2⟩ "boom"
    rfl rfl (by norm_num) (by norm_num) (by norm_num)

/-- C6: CONFIRMED.  A flush that finds the destination file missing while
bytes are buffered attempts no write, invokes the error callback exactly
once for the attempt, and leaves the cursor and the buffered bytes
unchanged; a timer-triggered flush adds no further callback because `save`
reported a nil error. -/
theorem flush_missing_file_behavior :
    ∀ (env : Env) (w : WorkerState), env.fileExists = false →
      w.position ≠ 0 →
      save env w = some ⟨0, none, w, [], 1⟩ ∧
      timerFlush env w = some ⟨0, none, w, [], 1⟩ :=
  fun env w hf hp => ⟨save_missing hf hp,
    by rw [timerFlush, save_missing hf hp, Option.map_some']⟩

/-- Witness for C6 at a concrete input. -/
theorem flush_missing_file_behavior_witness :
    save missingEnv ⟨[3, 1, 4], 3⟩ = some ⟨0, none, ⟨[3, 1, 4], 3⟩, [], 1⟩ ∧
    timerFlush missingEnv ⟨[3, 1, 4], 3⟩ =
      some ⟨0, none, ⟨[3, 1, 4], 3⟩, [], 1⟩ :=
  flush_missing_file_behavior missingEnv ⟨[3, 1, 4], 3⟩ rfl (by norm_num)

/-- C10: CONFIRMED.  A flush on an empty buffer (`position == 0`) — from
any trigger and in any environment, including a missing file or a failing
write — performs no write, returns success `(0, nil)` with zero callbacks,
and leaves the state unchanged. -/
theorem flush_empty_buffer_noop :
    ∀ (env : Env) (w : WorkerState), w.position = 0 →
      save env w = some ⟨0, none, w, [], 0⟩ ∧
      timerFlush env w = some ⟨0, none, w, [], 0⟩ :=
  fun env w h => ⟨save_posZero h,
    by rw [timerFlush, save_posZero h, Option.map_some']⟩

/-- Witness for C10 at a concrete input: the timer fires on a fresh worker
in an environment where the file is even missing and writes would fail. -/
theorem flush_empty_buffer_noop_witness :
    save ⟨false, some "gone"⟩ freshWorker =
      some ⟨0, none, freshWorker, [], 0⟩ ∧
    timerFlush ⟨false, some "gone"⟩ freshWorker =
      some ⟨0, none, freshWorker, [], 0⟩ :=
  flush_empty_buffer_noop ⟨false, some "gone"⟩ freshWorker rfl

/-- `Level` from logWriter/level.go: a `uint32`-backed enumeration; values
outside the four named constants are representable, as in Go. -/
abbrev Level := Nat

/-- `ErrorLevel` (`iota` = 0). -/
def ErrorLevel : Level := 0

/-- `WarnLevel` (1). -/
def WarnLevel : Level := 1

/-- `InfoLevel` (2). -/
def InfoLevel : Level := 2

/-- `DebugLevel` (3). -/
def DebugLevel : Level := 3

/-- The single-rune core of Go's `strings.ToLower` (`unicode.ToLower`,
Unicode simple case mappings), as observable through `ParseLevel`: ASCII
letters lowercase as usual, and the only two non-ASCII code points whose
simple lowercase mapping lands in ASCII are covered — U+0130 'İ' → 'i' and
the Kelvin sign U+212A → 'k'.  Every other cased rune lowercases to another
non-ASCII rune, so under Go's mapping as under this one it keeps the string
different from each of the five all-ASCII keywords. -/
def goToLowerChar (c : Char) : Char :=
  if c = '\u0130' then 'i'
  else if c = '\u212A' then 'k'
  else c.toLower

/-- Go's `strings.ToLower` as observed by `ParseLevel`: per-rune lowering
with `goToLowerChar`.  It selects the same `ParseLevel` branch as the full
Unicode mapping on every string (see `goToLowerChar`), and the error path
carries the original string untouched. -/
def strLower (s : String) : String := String.mk (s.data.map goToLowerChar)

/-- The `String()` method of `Level` from level.go. -/
def Level.String (level : Level) : String :=
  if level = DebugLevel then "debug"
  else if level = InfoLevel then "info"
  else if level = WarnLevel then "warning"
  else if level = ErrorLevel then "error"
  else "unknown"

/-- `ParseLevel` from level.go.  The Go error value
`fmt.Errorf("not a valid logrus Level: %q", lvl)` is modelled as the same
message with `%q` rendered as quote-wrapping. -/
def ParseLevel (lvl : String) : Except GoError Level :=
  if strLower lvl = "error" then .ok ErrorLevel
  else if strLower lvl = "warn" ∨ strLower lvl = "warning" then .ok WarnLevel
  else if strLower lvl = "info" then .ok InfoLevel
  else if strLower lvl = "debug" then .ok DebugLevel
  else .error ("not a valid logrus Level: \"" ++ lvl ++ "\"")

/-- C9: CONFIRMED.  Parsing the printed form of each of the four levels
gives the level back (note `Warn` prints as "warning", which parses to
`Warn` again), and every string whose lowercase form is none of "error",
"warn", "warning", "info", "debug" fails with the "not a valid … Level"
error carrying the offending text. -/
theorem parse_level_roundtrip_and_invalid :
    (ParseLevel (Level.String ErrorLevel) = .ok ErrorLevel ∧
     ParseLevel (Level.String WarnLevel) = .ok WarnLevel ∧
     ParseLevel (Level.String InfoLevel) = .ok InfoLevel ∧
     ParseLevel (Level.String DebugLevel) = .ok DebugLevel) ∧
    (∀ s : String, strLower s ≠ "error" → strLower s ≠ "warn" →
      strLower s ≠ "warning" → strLower s ≠ "info" → strLower s ≠ "debug" →
      ParseLevel s =
        .error ("not a valid logrus Level: \"" ++ s ++ "\"")) := by
  constructor
  · refine ⟨?_, ?_, ?_, ?_⟩ <;> rfl
  · intro s h1 h2 h3 h4 h5
    rw [ParseLevel, if_neg h1, if_neg (not_or.mpr ⟨h2, h3⟩), if_neg h4,
      if_neg h5]

/-- Witness for C9 at a concrete invalid input; the second conjunct
exhibits the Unicode-aware case-insensitivity at work: "İNFO" (with
U+0130) lowercases to "info" and parses, as in Go. -/
theorem parse_level_roundtrip_and_invalid_witness :
    ParseLevel "Fatal" = .error "not a valid logrus Level: \"Fatal\"" ∧
    ParseLevel "İNFO" = .ok InfoLevel :=
  ⟨parse_level_roundtrip_and_invalid.2 "Fatal" (by decide) (by decide)
    (by decide) (by decide) (by decide), by rfl⟩

/-- `Entry` and its constructors (the entry file of logWriter): level,
opaque message payload (the variadic args, modelled as a list of strings)
and optional format string (Go zero value `""` when absent). -/
structure Entry where
  level : Level
  message : List String
  format : String
deriving Repr, DecidableEq

/-- `NewEntry`: format field left at its zero value. -/
def NewEntry (level : Level) (message : List String) : Entry :=
  ⟨level, message, ""⟩

/-- `NewFormattedEntry` (argument order as in Go: level, format, message). -/
def NewFormattedEntry (level : Level) (format : String)
    (message : List String) : Entry :=
  ⟨level, message, format⟩

/-- The facade state from logger/logger.go read by the logging methods:
configured level, on/off status, and whether `stopCh` is closed. -/
structure LoggerState where
  logLevel : Level
  status : Bool
  stopped : Bool
deriving Repr, DecidableEq

/-- `Logger.isLoggable`: status on and `logLevel >= level`. -/
def isLoggable (lg : LoggerState) (level : Level) : Bool :=
  lg.status && decide (level ≤ lg.logLevel)

/-- `Logger.logFormattedEntry`: the result is the entry put on the channel
(`none` when the stop signal was observed).  The source constructs the
entry with `logWriter.DebugLevel`, ignoring its `level` parameter. -/
def logFormattedEntry (lg : LoggerState) (level : Level) (format : String)
    (args : List String) : Option Entry :=
  if lg.stopped then none
  else some (NewFormattedEntry DebugLevel format args)

/-- `Logger.Debugf`. -/
def Debugf (lg : LoggerState) (format : String) (args : List String) :
    Option Entry :=
  if isLoggable lg DebugLevel then logFormattedEntry lg DebugLevel format args
  else none

/-- `Logger.Infof`. -/
def Infof (lg : LoggerState) (format : String) (args : List String) :
    Option Entry :=
  if isLoggable lg InfoLevel then logFormattedEntry lg InfoLevel format args
  else none

/-- `Logger.Warnf`. -/
def Warnf (lg : LoggerState) (format : String) (args : List String) :
    Option Entry :=
  if isLoggable lg WarnLevel then logFormattedEntry lg WarnLevel format args
  else none

/-- `Logger.Errorf`. -/
def Errorf (lg : LoggerState) (format : String) (args : List String) :
    Option Entry :=
  if isLoggable lg ErrorLevel then logFormattedEntry lg ErrorLevel format args
  else none

theorem logFormattedEntry_debug {lg : LoggerState} {level : Level}
    {format : String} {args : List String} {e : Entry}
    (h : logFormattedEntry lg level format args = some e) :
    e.level = DebugLevel := by
  by_cases hs : lg.stopped
  · rw [logFormattedEntry, if_pos hs] at h
    cases h
  · rw [logFormattedEntry, if_neg hs] at h
    simp only [Option.some.injEq] at h
    subst h
    rfl

/-- C7: CONFIRMED.  `logFormattedEntry` builds the enqueued entry with
`DebugLevel` regardless of the level it was called with, so every entry
that `Infof`, `Warnf` or `Errorf` manages to enqueue is tagged Debug. -/
theorem formatted_entries_tagged_debug :
    (∀ (lg : LoggerState) (level : Level) (format : String)
      (args : List String) (e : Entry),
      logFormattedEntry lg level format args = some e →
        e.level = DebugLevel) ∧
    (∀ (lg : LoggerState) (format : String) (args : List String) (e : Entry),
      Infof lg format args = some e → e.level = DebugLevel) ∧
    (∀ (lg : LoggerState) (format : String) (args : List String) (e : Entry),
      Warnf lg format args = some e → e.level = DebugLevel) ∧
    (∀ (lg : LoggerState) (format : String) (args : List String) (e : Entry),
      Errorf lg format args = some e → e.level = DebugLevel) := by
  refine ⟨fun _ _ _ _ _ h => logFormattedEntry_debug h, ?_, ?_, ?_⟩ <;>
    intro lg format args e h
  · by_cases hl : isLoggable lg InfoLevel
    · rw [Infof, if_pos hl] at h
      exact logFormattedEntry_debug h
    · rw [Infof, if_neg hl] at h
      cases h
  · by_cases hl : isLoggable lg WarnLevel
    · rw [Warnf, if_pos hl] at h
      exact logFormattedEntry_debug h
    · rw [Warnf, if_neg hl] at h
      cases h
  · by_cases hl : isLoggable lg ErrorLevel
    · rw [Errorf, if_pos hl] at h
      exact logFormattedEntry_debug h
    · rw [Errorf, if_neg hl] at h
      cases h

/-- Witness for C7: a logger configured at `ErrorLevel`, switched on and
not stopped, enqueues via `Errorf` an entry tagged `DebugLevel`. -/
theorem formatted_entries_tagged_debug_witness :
    Errorf ⟨ErrorLevel, true, false⟩ "req %v failed" ["42"] =
      some (NewFormattedEntry DebugLevel "req %v failed" ["42"]) ∧
    (NewFormattedEntry DebugLevel "req %v failed" ["42"]).level =
      DebugLevel :=
  ⟨rfl, formatted_entries_tagged_debug.2.2.2 ⟨ErrorLevel, true, false⟩
    "req %v failed" ["42"] (NewFormattedEntry DebugLevel "req %v failed" ["42"])
    rfl⟩

/-- Go log package's `itoa`: decimal digits zero-padded to at least `wid`. -/
def padNat (wid n : Nat) : String :=
  let s := toString n
  if s.length < wid then
    String.mk (List.replicate (wid - s.length) '0') ++ s
  else s

/-- Does the rendered message already end in a newline?  (Go's `Output`
checks `len(s) == 0 || s[len(s)-1] != '\n'`.) -/
def endsNewline (s : String) : Bool := s.data.getLast? == some '\n'

/-- A wall-clock instant broken into the components the log header prints. -/
structure Timestamp where
  year : Nat
  month : Nat
  day : Nat
  hour : Nat
  minute : Nat
  second : Nat
  micro : Nat
deriving Repr, DecidableEq

/-- One line as produced by Go's `log.Logger.Output` for the flag set
`log.LstdFlags | log.Lmicroseconds | log.Lshortfile` — writer.go's
`defaultLogFlag`: prefix, date, time with microseconds, short file name and
line of the caller, then the message, with a newline appended when the
message lacks one.  (The log package is Go's standard library; this models
its documented header for exactly these flags.) -/
def logOutput (tag : String) (t : Timestamp) (file : String) (line : Nat)
    (msg : String) : String :=
  tag ++ padNat 4 t.year ++ "/" ++ padNat 2 t.month ++ "/" ++
    padNat 2 t.day ++ " " ++ padNat 2 t.hour ++ ":" ++ padNat 2 t.minute ++
    ":" ++ padNat 2 t.second ++ "." ++ padNat 6 t.micro ++ " " ++ file ++
    ":" ++ toString line ++ ": " ++ msg ++
    (if endsNewline msg then "" else "\n")

/-- `Worker.writeToBuffer` dispatch combined with the handle prefixes set in
`Worker.createLogHandles`: the bytes handed to `Worker.Write` for one entry
(`none` for a level outside the four, which `writeToBuffer` silently
drops).  `msg` is the rendered message (the `Printf`/`Println` payload). -/
def renderEntry (level : Level) (t : Timestamp) (file : String) (line : Nat)
    (msg : String) : Option String :=
  if level = WarnLevel then some (logOutput "[WARN]  " t file line msg)
  else if level = InfoLevel then some (logOutput "[INFO]  " t file line msg)
  else if level = DebugLevel then some (logOutput "[DEBUG] " t file line msg)
  else if level = ErrorLevel then some (logOutput "[ERROR] " t file line msg)
  else none

/-- The timestamp as the spec's §6 format names it: standard date and time
with microsecond precision. -/
def timestampStr (t : Timestamp) : String :=
  padNat 4 t.year ++ "/" ++ padNat 2 t.month ++ "/" ++ padNat 2 t.day ++
    " " ++ padNat 2 t.hour ++ ":" ++ padNat 2 t.minute ++ ":" ++
    padNat 2 t.second ++ "." ++ padNat 6 t.micro

/-- Modelled from the spec's words (§6): «<prefix><standard timestamp with
microsecond precision><rendered message>\n», the prefix one of the four
fixed tags, with no other fields in between. -/
def specRenderedLine (level : Level) (t : Timestamp) (msg : String) :
    Option String :=
  if level = WarnLevel then
    some ("[WARN]  " ++ timestampStr t ++ msg ++ "\n")
  else if level = InfoLevel then
    some ("[INFO]  " ++ timestampStr t ++ msg ++ "\n")
  else if level = DebugLevel then
    some ("[DEBUG] " ++ timestampStr t ++ msg ++ "\n")
  else if level = ErrorLevel then
    some ("[ERROR] " ++ timestampStr t ++ msg ++ "\n")
  else none

/-- A concrete instant used by the C8 counterexample. -/
def t0 : Timestamp := ⟨2024, 1, 2, 3, 4, 5, 6⟩

/-- C8: COUNTEREXAMPLE.  For a concrete entry the worker renders
`[INFO]  2024/01/02 03:04:05.000006 writer.go:42: hello\n` — a
`file:line:` source-location field sits between the timestamp and the
message, because `defaultLogFlag` includes `log.Lshortfile` — while the
spec's format grammar (prefix, timestamp, message, newline, nothing else)
yields a different line. -/
theorem rendered_line_not_spec_format :
    renderEntry InfoLevel t0 "writer.go" 42 "hello" =
      some "[INFO]  2024/01/02 03:04:05.000006 writer.go:42: hello\n" ∧
    specRenderedLine InfoLevel t0 "hello" =
      some "[INFO]  2024/01/02 03:04:05.000006hello\n" ∧
    ("[INFO]  2024/01/02 03:04:05.000006 writer.go:42: hello\n" : String) ≠
      "[INFO]  2024/01/02 03:04:05.000006hello\n" := by
  refine ⟨?_, ?_, ?_⟩ <;> decide

/-- C8 (amended): for each of the four levels the bytes appended per entry
are exactly the four-character-padded severity tag, the standard timestamp
with microsecond precision, a space, the caller's short file name, a colon,
the line number, a colon and a space, then the rendered message, with a
newline appended when the message does not already end in one. -/
theorem rendered_line_format :
    ∀ (t : Timestamp) (file : String) (line : Nat) (msg : String),
      renderEntry WarnLevel t file line msg =
        some ("[WARN]  " ++ timestampStr t ++ " " ++ file ++ ":" ++
          toString line ++ ": " ++ msg ++
          (if endsNewline msg then "" else "\n")) ∧
      renderEntry InfoLevel t file line msg =
        some ("[INFO]  " ++ timestampStr t ++ " " ++ file ++ ":" ++
          toString line ++ ": " ++ msg ++
          (if endsNewline msg then "" else "\n")) ∧
      renderEntry DebugLevel t file line msg =
        some ("[DEBUG] " ++ timestampStr t ++ " " ++ file ++ ":" ++
          toString line ++ ": " ++ msg ++
          (if endsNewline msg then "" else "\n")) ∧
      renderEntry ErrorLevel t file line msg =
        some ("[ERROR] " ++ timestampStr t ++ " " ++ file ++ ":" ++
          toString line ++ ": " ++ msg ++
          (if endsNewline msg then "" else "\n")) := by
  intro t file line msg
  refine ⟨?_, ?_, ?_, ?_⟩ <;>
    simp [renderEntry, logOutput, timestampStr, WarnLevel, InfoLevel,
      DebugLevel, ErrorLevel, String.append_assoc]
